import Mathlib

/-!
Shallow embedding of the RAG chat backend in `src/api/app.py` (FastAPI service:
`/api/chat`, `/api/upload-pdf`, `/api/health`) together with the collaborators
it consumes from the `aimakerspace` package (which is imported by `app.py` but
is not part of the source tree; those parts are modelled from the spec).

Conventions of the embedding:
- Python strings are Lean `String`; byte payloads never matter to the claims,
  so an uploaded file is represented by the outcome of its PDF-text extraction.
- Network collaborators (the embedding provider, the PDF extractor, the chat
  completion stream) are passed in as explicit oracle values so that a request
  handler becomes a pure function from (request, oracles, global state) to
  (HTTP outcome, new global state, observable effects).
- `vector_db`, the module-level global of `app.py`, is threaded as an
  `Option VectorDatabase` (None before any index exists).
- A `fastapi.HTTPException` raised inside the handlers' `try` blocks is caught
  by their blanket `except Exception` clause (HTTPException is a subclass of
  Exception), so those handlers answer 500 on every internal raise; a missing
  required header is rejected by the framework with 422 before the handler
  body runs.
-/

/-- A chunk of document text (`Chunk` in the spec; plain `str` in the code). -/
abbrev Chunk := String

/-- An embedding vector. The provider returns a fixed-length sequence of
floating-point numbers; the claims treat vectors as opaque payloads, so they
are modelled as rational sequences (no claim computes with float rounding). -/
abbrev EmbeddingVector := List Rat

/-- Modelled from the spec: `VectorIndex` / `aimakerspace.vectordatabase.VectorDatabase`
(the class is imported by `app.py` but its source is not under `src/`). It owns
an ordered collection of (Chunk, EmbeddingVector) entries; `len(db.vectors)` in
the code is the entry count. -/
structure VectorDatabase where
  vectors : List (Chunk × EmbeddingVector)
deriving DecidableEq

/-- Python `s.startswith(p)`: the first `len(p)` characters of `s` equal `p`. -/
def pyStartsWith (s p : String) : Bool :=
  decide (s.data.take p.data.length = p.data)

/-- Python `s.lower()`, character by character. -/
def pyLower (s : String) : String :=
  String.mk (s.data.map Char.toLower)

/-- Python `s.endswith(p)`: the last `len(p)` characters of `s` equal `p`. -/
def pyEndsWith (s p : String) : Bool :=
  decide (p.data.length ≤ s.data.length ∧
    s.data.drop (s.data.length - p.data.length) = p.data)

/-- Core loop of Python `s.replace(old, new)` for a non-empty `old = o :: os`:
scan left to right, replacing each (non-overlapping) occurrence. The fuel is
the length of the scanned list, which bounds the number of steps. -/
def listReplaceAux (o : Char) (os new : List Char) : Nat → List Char → List Char
  | 0, rest => rest
  | _ + 1, [] => []
  | fuel + 1, c :: cs =>
    if c = o ∧ cs.take os.length = os then
      new ++ listReplaceAux o os new fuel (cs.drop os.length)
    else
      c :: listReplaceAux o os new fuel cs

/-- Python `s.replace(old, new)`: replaces every occurrence of `old`, not just
a leading one. (For empty `old` the code never takes that path; returning `s`
is irrelevant to every claim.) -/
def pyReplace (s old new : String) : String :=
  match old.data with
  | [] => s
  | o :: os => String.mk (listReplaceAux o os new.data s.data.length s.data)

/-- Modelled from the spec: the Chunker window loop — fixed-size windows of
`1000` characters advancing by `1000 - 200 = 800` (overlap 200). Fuel-driven
so the definition is structurally recursive and kernel-evaluable. -/
def windowChunksAux : Nat → List Char → List (List Char)
  | 0, _ => []
  | _ + 1, [] => []
  | fuel + 1, cs =>
    if cs.length ≤ 1000 then [cs]
    else cs.take 1000 :: windowChunksAux fuel (cs.drop 800)

/-- Modelled from the spec: split one text into overlapping fixed-size chunks
(size 1000 characters, overlap 200). -/
def splitText (s : String) : List Chunk :=
  (windowChunksAux (s.data.length + 1) s.data).map String.mk

/-- Modelled from the spec: `CharacterTextSplitter.split_texts` — split each
extracted document and keep insertion order (`text_splitter` in `app.py` is
constructed with `chunk_size=1000, chunk_overlap=200`). -/
def splitTexts (documents : List String) : List Chunk :=
  documents.flatMap splitText

/-- Modelled from the spec: ingestion step 5 inside
`VectorDatabase.abuild_from_list` — obtain one embedding per chunk via the
embedder oracle; a failure on any chunk fails the whole list (no partial
result). -/
def embedChunks (embed : Chunk → Except String EmbeddingVector) :
    List Chunk → Except String (List (Chunk × EmbeddingVector))
  | [] => Except.ok []
  | c :: cs =>
    match embed c with
    | Except.error e => Except.error e
    | Except.ok v =>
      match embedChunks embed cs with
      | Except.error e => Except.error e
      | Except.ok rest => Except.ok ((c, v) :: rest)

/-- The chunks on which the embedder oracle is actually invoked while
`embedChunks` runs: every chunk up to and including the first failing one. -/
def embedCallTrace (embed : Chunk → Except String EmbeddingVector) :
    List Chunk → List Chunk
  | [] => []
  | c :: cs =>
    match embed c with
    | Except.error _ => [c]
    | Except.ok _ => c :: embedCallTrace embed cs

/-- Stable insertion of a scored entry into a list sorted by descending score:
an entry moves ahead only of strictly lower scores, so ties keep insertion
order (earlier entries first), as the spec requires. -/
def insertByScoreDesc (x : Chunk × Rat) : List (Chunk × Rat) → List (Chunk × Rat)
  | [] => [x]
  | y :: ys => if y.2 < x.2 then x :: y :: ys else y :: insertByScoreDesc x ys

/-- Stable sort by descending score (insertion sort). -/
def sortByScoreDesc : List (Chunk × Rat) → List (Chunk × Rat)
  | [] => []
  | x :: xs => insertByScoreDesc x (sortByScoreDesc xs)

/-- Modelled from the spec: `VectorDatabase.search` — score every entry against
the query, rank by descending similarity with ties broken by insertion order,
return at most `k`. The spec fixes cosine similarity but asks that the scoring
function stay pluggable (its square roots are not rational anyway), so the
score is a parameter; no claim depends on the concrete scoring. -/
def VectorDatabase.search (db : VectorDatabase) (q : EmbeddingVector) (k : Nat)
    (score : EmbeddingVector → EmbeddingVector → Rat) : List (Chunk × Rat) :=
  (sortByScoreDesc (db.vectors.map (fun e => (e.1, score q e.2)))).take k

/-- Lines 174-178 of `app.py`: start from `request.developer_message` and, when
`relevant_chunks` is non-empty, append the labeled context section built from
the chunks joined by a blank line. -/
def enhanceDeveloperMessage (developer_message : String)
    (relevant_chunks : List Chunk) : String :=
  if relevant_chunks.isEmpty then developer_message
  else
    developer_message
      ++ "\n\nRelevant context from uploaded documents:\n"
      ++ String.intercalate "\n\n" relevant_chunks
      ++ "\n\nPlease use this context to answer the user's question when relevant."

/-- The body of `POST /api/chat` (`ChatRequest` Pydantic model in `app.py`). -/
structure ChatRequest where
  developer_message : String
  user_message : String
  model : String
deriving DecidableEq

/-- Lines 128-172 of `app.py`: the retrieval block of `chat`. When the index
is non-empty, embed the query and search with `k=3`; any exception in that
`try` block (modelled by the embed oracle failing) resets `relevant_chunks`
to `[]`. Returns the chunks together with the number of embedding provider
calls that were made. -/
def chatRetrieval (embedQuery : Except String EmbeddingVector)
    (score : EmbeddingVector → EmbeddingVector → Rat)
    (db : VectorDatabase) : List Chunk × Nat :=
  if 0 < db.vectors.length then
    match embedQuery with
    | Except.error _ => ([], 1)
    | Except.ok q => ((db.search q 3 score).map Prod.fst, 1)
  else ([], 0)

/-- Everything observable about one `POST /api/chat` request: HTTP status,
the retrieval result, the developer instruction handed to the generator
(`none` when generation is never reached), the credential forwarded to the
provider client (`api_key` of line 122, `none` when never computed), the
global `vector_db` after the request, the number of query-embedding provider
calls, and whether the completion stream was requested. -/
structure ChatOutcome where
  status : Nat
  relevantChunks : List Chunk
  enhancedDev : Option String
  apiKey : Option String
  newDb : Option VectorDatabase
  queryEmbedCalls : Nat
  generatorCalled : Bool
deriving DecidableEq

/-- Lines 106-207 of `app.py`: the `chat` handler. A missing `Authorization`
header is rejected by FastAPI with 422 before the body runs; a header that
does not start with `"Bearer "` raises `HTTPException(401)` inside the `try`,
which the blanket `except Exception` re-raises as 500. Otherwise the key is
`authorization.replace("Bearer ", "")`, `get_vector_db()` installs an empty
database if the global is still `None`, retrieval is attempted best-effort,
and a streaming generation is started with the (possibly augmented)
developer message. -/
def chat (req : ChatRequest) (authorization : Option String)
    (embedQuery : Except String EmbeddingVector)
    (score : EmbeddingVector → EmbeddingVector → Rat)
    (vector_db : Option VectorDatabase) : ChatOutcome :=
  match authorization with
  | none =>
    { status := 422, relevantChunks := [], enhancedDev := none, apiKey := none,
      newDb := vector_db, queryEmbedCalls := 0, generatorCalled := false }
  | some auth =>
    if pyStartsWith auth "Bearer " then
      { status := 200,
        relevantChunks :=
          (chatRetrieval embedQuery score (vector_db.getD { vectors := [] })).1,
        enhancedDev := some (enhanceDeveloperMessage req.developer_message
          (chatRetrieval embedQuery score (vector_db.getD { vectors := [] })).1),
        apiKey := some (pyReplace auth "Bearer " ""),
        newDb := some (vector_db.getD { vectors := [] }),
        queryEmbedCalls :=
          (chatRetrieval embedQuery score (vector_db.getD { vectors := [] })).2,
        generatorCalled := true }
    else
      { status := 500, relevantChunks := [], enhancedDev := none, apiKey := none,
        newDb := vector_db, queryEmbedCalls := 0, generatorCalled := false }

/-- Line 218 of `app.py`: `not file.filename or not file.filename.lower().endswith('.pdf')`
— the upload is accepted only when a filename is present, non-empty, and its
lowercase form ends in `.pdf`. -/
def filenameOk (filename : Option String) : Bool :=
  match filename with
  | none => false
  | some f => if f = "" then false else pyEndsWith (pyLower f) ".pdf"

/-- Everything observable about one `POST /api/upload-pdf` request: HTTP
status, the `chunks_created` response field (`none` on failure), the global
`vector_db` after the request, the forwarded credential (`api_key` of line
216), whether the temporary file of line 222 was created and whether it was
deleted by the end of the request, and the chunks on which the embedding
provider was invoked. -/
structure UploadOutcome where
  status : Nat
  chunksCreated : Option Nat
  newDb : Option VectorDatabase
  apiKey : Option String
  tempCreated : Bool
  tempDeleted : Bool
  embedCalls : List Chunk
deriving DecidableEq

/-- Lines 210-281 of `app.py`: the `upload_pdf` handler. Order of steps:
auth check (401 raised inside `try`, hence surfaced as 500), filename check
(400 raised inside `try`, hence surfaced as 500), temp-file creation,
PDF text extraction, chunking, per-chunk embedding via
`VectorDatabase.abuild_from_list`, then `vector_db = db` (the only index
mutation) and `os.unlink(temp_file_path)` — the unlink is only on this
success path; no `finally` exists, so failure paths leave the temp file.
A missing required header is a 422 from the framework. -/
def upload_pdf (authorization : Option String) (filename : Option String)
    (extract : Except String (List String))
    (embed : Chunk → Except String EmbeddingVector)
    (vector_db : Option VectorDatabase) : UploadOutcome :=
  match authorization with
  | none =>
    { status := 422, chunksCreated := none, newDb := vector_db, apiKey := none,
      tempCreated := false, tempDeleted := false, embedCalls := [] }
  | some auth =>
    if pyStartsWith auth "Bearer " then
      if filenameOk filename then
        match extract with
        | Except.error _ =>
          { status := 500, chunksCreated := none, newDb := vector_db,
            apiKey := some (pyReplace auth "Bearer " ""),
            tempCreated := true, tempDeleted := false, embedCalls := [] }
        | Except.ok documents =>
          match embedChunks embed (splitTexts documents) with
          | Except.error _ =>
            { status := 500, chunksCreated := none, newDb := vector_db,
              apiKey := some (pyReplace auth "Bearer " ""),
              tempCreated := true, tempDeleted := false,
              embedCalls := embedCallTrace embed (splitTexts documents) }
          | Except.ok entries =>
            { status := 200, chunksCreated := some (splitTexts documents).length,
              newDb := some { vectors := entries },
              apiKey := some (pyReplace auth "Bearer " ""),
              tempCreated := true, tempDeleted := true,
              embedCalls := splitTexts documents }
      else
        { status := 500, chunksCreated := none, newDb := vector_db,
          apiKey := some (pyReplace auth "Bearer " ""),
          tempCreated := false, tempDeleted := false, embedCalls := [] }
    else
      { status := 500, chunksCreated := none, newDb := vector_db, apiKey := none,
        tempCreated := false, tempDeleted := false, embedCalls := [] }

/-- Everything observable about one `GET /api/health` request. -/
structure HealthOutcome where
  status : String
  indexed_documents : Nat
  newDb : Option VectorDatabase
deriving DecidableEq

/-- Lines 289-293 of `app.py`: the `health_check` handler. It takes no
credential at all, reads the global without calling `get_vector_db` (so it
never installs an index), and reports `len(vector_db.vectors)` or `0`. -/
def health_check (vector_db : Option VectorDatabase) : HealthOutcome :=
  { status := "ok",
    indexed_documents :=
      match vector_db with
      | none => 0
      | some db => db.vectors.length,
    newDb := vector_db }

/-- One event produced while iterating the provider's completion stream:
either one `chunk` whose `choices[0].delta.content` is the given optional
string, or the provider raising an exception at that point. -/
inductive StreamEvent where
  | delta (content : Option String)
  | raised (msg : String)
deriving DecidableEq

/-- Lines 181-195 of `app.py`: the `generate` async generator, run against a
provider stream given as its event sequence. It yields every non-`None`
delta content; a provider exception propagates out of the generator, so
iteration stops at the first `raised` event and nothing further is emitted.
Returns the fragments the response body received from this point on, and
whether the stream ended by a provider exception. -/
def generateFragments : List StreamEvent → List String × Bool
  | [] => ([], false)
  | StreamEvent.delta none :: evs => generateFragments evs
  | StreamEvent.delta (some s) :: evs =>
    ((generateFragments evs).1.cons s, (generateFragments evs).2)
  | StreamEvent.raised _ :: _ => ([], true)

/-- The fragments the provider delivered strictly before its first exception
(the non-`None` delta contents preceding the first `raised` event). -/
def fragmentsBeforeRaise : List StreamEvent → List String
  | [] => []
  | StreamEvent.delta none :: evs => fragmentsBeforeRaise evs
  | StreamEvent.delta (some s) :: evs => s :: fragmentsBeforeRaise evs
  | StreamEvent.raised _ :: _ => []

/-- Helper: a successful `embedChunks` run pairs each chunk with a vector in
order, so the first components of the entries are exactly the input chunks. -/
theorem embedChunks_map_fst (embed : Chunk → Except String EmbeddingVector) :
    ∀ (chunks : List Chunk) (entries : List (Chunk × EmbeddingVector)),
      embedChunks embed chunks = Except.ok entries →
      entries.map Prod.fst = chunks := by
  intro chunks
  induction chunks with
  | nil =>
    intro entries h
    simp only [embedChunks, Except.ok.injEq] at h
    subst h
    rfl
  | cons c cs ih =>
    intro entries h
    simp only [embedChunks] at h
    cases hc : embed c with
    | error e => rw [hc] at h; exact absurd h (by simp)
    | ok v =>
      rw [hc] at h
      cases hr : embedChunks embed cs with
      | error e => rw [hr] at h; exact absurd h (by simp)
      | ok rest =>
        rw [hr] at h
        simp only [Except.ok.injEq] at h
        subst h
        simp [ih rest hr]

/-- C1: a successful `POST /api/upload-pdf` leaves the global `vector_db`
holding a freshly built database whose entries come from exactly the chunks
of the uploaded document, and the installed value does not depend on the
prior state of the global at all (wholesale replacement by one assignment);
hence a second ingestion of the same document leaves exactly the second
ingestion's chunk count, never the sum. -/
theorem c1_upload_success_replaces_index
    (authorization filename : Option String)
    (extract : Except String (List String))
    (embed : Chunk → Except String EmbeddingVector)
    (db0 db0' : Option VectorDatabase)
    (h : (upload_pdf authorization filename extract embed db0).status = 200) :
    ∃ documents entries,
      extract = Except.ok documents ∧
      embedChunks embed (splitTexts documents) = Except.ok entries ∧
      entries.map Prod.fst = splitTexts documents ∧
      (upload_pdf authorization filename extract embed db0).newDb
        = some { vectors := entries } ∧
      (upload_pdf authorization filename extract embed db0).chunksCreated
        = some (splitTexts documents).length ∧
      (upload_pdf authorization filename extract embed db0').newDb
        = some { vectors := entries } := by
  cases authorization with
  | none => simp [upload_pdf] at h
  | some auth =>
    by_cases hb : pyStartsWith auth "Bearer " = true
    · by_cases hf : filenameOk filename = true
      · cases extract with
        | error e => simp [upload_pdf, hb, hf] at h
        | ok documents =>
          cases he : embedChunks embed (splitTexts documents) with
          | error e => simp [upload_pdf, hb, hf, he] at h
          | ok entries =>
            exact ⟨documents, entries, rfl, he,
              embedChunks_map_fst embed _ _ he,
              by simp [upload_pdf, hb, hf, he],
              by simp [upload_pdf, hb, hf, he],
              by simp [upload_pdf, hb, hf, he]⟩
      · simp [upload_pdf, hb, hf] at h
    · simp [upload_pdf, hb] at h

/-- C1 witness: a concrete successful upload of a one-chunk document over a
non-empty prior index. -/
theorem c1_upload_success_replaces_index_witness :
    (upload_pdf (some "Bearer sk-test") (some "doc.pdf") (Except.ok ["hello"])
        (fun _ => Except.ok [1]) none).status = 200 ∧
    ∃ documents entries,
      (Except.ok ["hello"] : Except String (List String)) = Except.ok documents ∧
      embedChunks (fun _ => Except.ok [(1 : Rat)]) (splitTexts documents)
        = Except.ok entries ∧
      entries.map Prod.fst = splitTexts documents ∧
      (upload_pdf (some "Bearer sk-test") (some "doc.pdf") (Except.ok ["hello"])
        (fun _ => Except.ok [1]) none).newDb = some { vectors := entries } ∧
      (upload_pdf (some "Bearer sk-test") (some "doc.pdf") (Except.ok ["hello"])
        (fun _ => Except.ok [1]) none).chunksCreated
        = some (splitTexts documents).length ∧
      (upload_pdf (some "Bearer sk-test") (some "doc.pdf") (Except.ok ["hello"])
        (fun _ => Except.ok [1]) (some { vectors := [("old", [2])] })).newDb
        = some { vectors := entries } :=
  ⟨by decide,
   c1_upload_success_replaces_index (some "Bearer sk-test") (some "doc.pdf")
     (Except.ok ["hello"]) (fun _ => Except.ok [1]) none
     (some { vectors := [("old", [2])] }) (by decide)⟩

/-- C2: any `POST /api/upload-pdf` request that does not succeed leaves the
global `vector_db` exactly as it was: the assignment to the global is the
last step of the pipeline, after every embedding has succeeded, so no
partial index update is ever visible. -/
theorem c2_upload_failure_preserves_index
    (authorization filename : Option String)
    (extract : Except String (List String))
    (embed : Chunk → Except String EmbeddingVector)
    (db0 : Option VectorDatabase)
    (h : (upload_pdf authorization filename extract embed db0).status ≠ 200) :
    (upload_pdf authorization filename extract embed db0).newDb = db0 := by
  cases authorization with
  | none => rfl
  | some auth =>
    by_cases hb : pyStartsWith auth "Bearer " = true
    · by_cases hf : filenameOk filename = true
      · cases extract with
        | error e => simp [upload_pdf, hb, hf]
        | ok documents =>
          cases he : embedChunks embed (splitTexts documents) with
          | error e => simp [upload_pdf, hb, hf, he]
          | ok entries => exact absurd (by simp [upload_pdf, hb, hf, he]) h
      · simp [upload_pdf, hb, hf]
    · simp [upload_pdf, hb]

/-- C2 witness: an upload failing at PDF extraction leaves the concrete prior
index untouched. -/
theorem c2_upload_failure_preserves_index_witness :
    (upload_pdf (some "Bearer sk-test") (some "doc.pdf") (Except.error "corrupt")
        (fun _ => Except.ok [1]) (some { vectors := [("old", [2])] })).newDb
      = some { vectors := [("old", [2])] } :=
  c2_upload_failure_preserves_index (some "Bearer sk-test") (some "doc.pdf")
    (Except.error "corrupt") (fun _ => Except.ok [1])
    (some { vectors := [("old", [2])] }) (by decide)

/-- C3: on a non-empty index, when the query-time retrieval block raises (the
embedding oracle fails), `chat` does not fail: the request still answers 200,
`relevant_chunks` is reset to empty, the developer instruction reaches the
generator unaugmented, and the completion stream is still started. -/
theorem c3_chat_retrieval_error_degrades_gracefully
    (req : ChatRequest) (auth e : String)
    (score : EmbeddingVector → EmbeddingVector → Rat) (db : VectorDatabase)
    (hauth : pyStartsWith auth "Bearer " = true)
    (hne : db.vectors ≠ []) :
    (chat req (some auth) (Except.error e) score (some db)).status = 200 ∧
    (chat req (some auth) (Except.error e) score (some db)).relevantChunks = [] ∧
    (chat req (some auth) (Except.error e) score (some db)).enhancedDev
      = some req.developer_message ∧
    (chat req (some auth) (Except.error e) score (some db)).generatorCalled
      = true := by
  have hlen : 0 < db.vectors.length := List.length_pos.mpr hne
  simp [chat, hauth, chatRetrieval, hlen, enhanceDeveloperMessage]

/-- C3 witness: a concrete chat turn over a one-entry index whose query
embedding raises. -/
theorem c3_chat_retrieval_error_degrades_gracefully_witness :
    pyStartsWith "Bearer sk-test" "Bearer " = true ∧
    (chat { developer_message := "dev", user_message := "hi",
            model := "gpt-4.1-mini" }
      (some "Bearer sk-test") (Except.error "boom") (fun _ _ => 0)
      (some { vectors := [("c", [1])] })).status = 200 ∧
    (chat { developer_message := "dev", user_message := "hi",
            model := "gpt-4.1-mini" }
      (some "Bearer sk-test") (Except.error "boom") (fun _ _ => 0)
      (some { vectors := [("c", [1])] })).relevantChunks = [] ∧
    (chat { developer_message := "dev", user_message := "hi",
            model := "gpt-4.1-mini" }
      (some "Bearer sk-test") (Except.error "boom") (fun _ _ => 0)
      (some { vectors := [("c", [1])] })).enhancedDev = some "dev" ∧
    (chat { developer_message := "dev", user_message := "hi",
            model := "gpt-4.1-mini" }
      (some "Bearer sk-test") (Except.error "boom") (fun _ _ => 0)
      (some { vectors := [("c", [1])] })).generatorCalled = true :=
  ⟨by decide,
   c3_chat_retrieval_error_degrades_gracefully
     { developer_message := "dev", user_message := "hi", model := "gpt-4.1-mini" }
     "Bearer sk-test" "boom" (fun _ _ => 0) { vectors := [("c", [1])] }
     (by decide) (by decide)⟩

/-- C4: uploading `notes.txt` with a valid bearer header does leave the index
untouched, but the response status is 500, not the claimed 400 — the handler
raises `HTTPException(400)` inside its own `try` block and the blanket
`except Exception` re-raises it as `HTTPException(500, "Error processing
PDF: ...")`. Evaluation of the model at that failing input. -/
theorem c4_nonpdf_upload_surfaces_500_not_400 :
    (upload_pdf (some "Bearer sk-test") (some "notes.txt") (Except.ok ["text"])
        (fun _ => Except.ok [1]) (some { vectors := [("old", [2])] })).status
      = 500 ∧
    (upload_pdf (some "Bearer sk-test") (some "notes.txt") (Except.ok ["text"])
        (fun _ => Except.ok [1]) (some { vectors := [("old", [2])] })).status
      ≠ 400 ∧
    (upload_pdf (some "Bearer sk-test") (some "notes.txt") (Except.ok ["text"])
        (fun _ => Except.ok [1]) (some { vectors := [("old", [2])] })).newDb
      = some { vectors := [("old", [2])] } ∧
    (upload_pdf (some "Bearer sk-test") (some "notes.txt") (Except.ok ["text"])
        (fun _ => Except.ok [1]) (some { vectors := [("old", [2])] })).embedCalls
      = [] := by
  decide

/-- C5: a malformed `Authorization` header on `/api/chat` or `/api/upload-pdf`
does trigger zero provider calls, but the surfaced status is 500, not the
claimed 401 (the `HTTPException(401)` raised inside the handlers' `try`
blocks is re-raised as 500 by the blanket `except Exception`); a completely
missing header is rejected by the framework with 422 before the handler
runs. Evaluation of the model at those failing inputs. -/
theorem c5_auth_failure_surfaces_500_or_422_not_401 :
    (chat { developer_message := "dev", user_message := "hi",
            model := "gpt-4.1-mini" }
      (some "Basic abc") (Except.ok [1]) (fun _ _ => 0) none).status = 500 ∧
    (chat { developer_message := "dev", user_message := "hi",
            model := "gpt-4.1-mini" }
      (some "Basic abc") (Except.ok [1]) (fun _ _ => 0) none).status ≠ 401 ∧
    (chat { developer_message := "dev", user_message := "hi",
            model := "gpt-4.1-mini" }
      (some "Basic abc") (Except.ok [1]) (fun _ _ => 0) none).queryEmbedCalls
      = 0 ∧
    (chat { developer_message := "dev", user_message := "hi",
            model := "gpt-4.1-mini" }
      (some "Basic abc") (Except.ok [1]) (fun _ _ => 0) none).generatorCalled
      = false ∧
    (chat { developer_message := "dev", user_message := "hi",
            model := "gpt-4.1-mini" }
      none (Except.ok [1]) (fun _ _ => 0) none).status = 422 ∧
    (chat { developer_message := "dev", user_message := "hi",
            model := "gpt-4.1-mini" }
      none (Except.ok [1]) (fun _ _ => 0) none).generatorCalled = false ∧
    (upload_pdf (some "Basic abc") (some "doc.pdf") (Except.ok ["text"])
        (fun _ => Except.ok [1]) none).status = 500 ∧
    (upload_pdf (some "Basic abc") (some "doc.pdf") (Except.ok ["text"])
        (fun _ => Except.ok [1]) none).status ≠ 401 ∧
    (upload_pdf (some "Basic abc") (some "doc.pdf") (Except.ok ["text"])
        (fun _ => Except.ok [1]) none).embedCalls = [] ∧
    (upload_pdf none (some "doc.pdf") (Except.ok ["text"])
        (fun _ => Except.ok [1]) none).status = 422 ∧
    (upload_pdf none (some "doc.pdf") (Except.ok ["text"])
        (fun _ => Except.ok [1]) none).embedCalls = [] := by
  decide

/-- C6: the temporary file created at line 222 of `app.py` is deleted only by
the `os.unlink` on the success path; there is no `finally`, so both an
extraction failure and an embedding failure leave the file behind,
contradicting the claimed release on every exit path. Evaluation of the
model at those failing inputs. -/
theorem c6_temp_file_leaks_on_failure_paths :
    (upload_pdf (some "Bearer sk-test") (some "doc.pdf") (Except.error "corrupt")
        (fun _ => Except.ok [1]) none).tempCreated = true ∧
    (upload_pdf (some "Bearer sk-test") (some "doc.pdf") (Except.error "corrupt")
        (fun _ => Except.ok [1]) none).tempDeleted = false ∧
    (upload_pdf (some "Bearer sk-test") (some "doc.pdf") (Except.error "corrupt")
        (fun _ => Except.ok [1]) none).status = 500 ∧
    (upload_pdf (some "Bearer sk-test") (some "doc.pdf") (Except.ok ["text"])
        (fun _ => Except.error "quota") none).tempCreated = true ∧
    (upload_pdf (some "Bearer sk-test") (some "doc.pdf") (Except.ok ["text"])
        (fun _ => Except.error "quota") none).tempDeleted = false ∧
    (upload_pdf (some "Bearer sk-test") (some "doc.pdf") (Except.ok ["text"])
        (fun _ => Except.ok [1]) none).tempCreated = true ∧
    (upload_pdf (some "Bearer sk-test") (some "doc.pdf") (Except.ok ["text"])
        (fun _ => Except.ok [1]) none).tempDeleted = true := by
  decide

/-- C7 counterexample: with a provider stream that delivers one fragment and
then raises, the body the `generate` generator emits is exactly the one
pre-error fragment; no error marker is appended after it, so the claimed
"error marker as the final fragment" is false at this input. -/
theorem c7_midstream_error_no_marker_counterexample :
    (generateFragments
      [StreamEvent.delta (some "Hello"), StreamEvent.raised "boom"]).2 = true ∧
    fragmentsBeforeRaise
      [StreamEvent.delta (some "Hello"), StreamEvent.raised "boom"] = ["Hello"] ∧
    (generateFragments
      [StreamEvent.delta (some "Hello"), StreamEvent.raised "boom"]).1
      = ["Hello"] ∧
    ¬ ∃ marker : String,
      (generateFragments
        [StreamEvent.delta (some "Hello"), StreamEvent.raised "boom"]).1
        = fragmentsBeforeRaise
            [StreamEvent.delta (some "Hello"), StreamEvent.raised "boom"]
          ++ [marker] := by
  refine ⟨rfl, rfl, rfl, ?_⟩
  rintro ⟨marker, hm⟩
  have h2 : (["Hello"] : List String) = ["Hello", marker] := hm
  exact absurd (congrArg List.length h2) (by simp)

/-- C7 (amended): if the generation provider raises after any number of
fragments, `generate` terminates the stream at that point and the body
received is exactly the fragments delivered before the exception — nothing,
in particular no error marker, is emitted after it. -/
theorem c7_midstream_error_terminates_stream_without_marker
    (evs : List StreamEvent) :
    (generateFragments evs).1 = fragmentsBeforeRaise evs := by
  induction evs with
  | nil => rfl
  | cons ev evs ih =>
    cases ev with
    | delta c =>
      cases c with
      | none => simpa [generateFragments, fragmentsBeforeRaise] using ih
      | some s => simp [generateFragments, fragmentsBeforeRaise, ih]
    | raised m => rfl

/-- C8: with a valid bearer header, the developer instruction handed to the
generator is the request's `developer_message` unchanged when retrieval
produced no chunks (in particular whenever no index exists), and otherwise is
`developer_message` followed by the labeled context section: the retrieved
chunks joined by a blank line, bracketed by the fixed label and the
use-only-when-relevant instruction; and the chunks are exactly the ranked
search results when retrieval ran. -/
theorem c8_developer_message_augmentation
    (req : ChatRequest) (auth : String)
    (embedQuery : Except String EmbeddingVector)
    (score : EmbeddingVector → EmbeddingVector → Rat)
    (vdb : Option VectorDatabase)
    (hauth : pyStartsWith auth "Bearer " = true) :
    ((chat req (some auth) embedQuery score vdb).relevantChunks = [] →
      (chat req (some auth) embedQuery score vdb).enhancedDev
        = some req.developer_message) ∧
    ((chat req (some auth) embedQuery score vdb).relevantChunks ≠ [] →
      (chat req (some auth) embedQuery score vdb).enhancedDev
        = some (req.developer_message
            ++ "\n\nRelevant context from uploaded documents:\n"
            ++ String.intercalate "\n\n"
                (chat req (some auth) embedQuery score vdb).relevantChunks
            ++ "\n\nPlease use this context to answer the user's question when relevant.")) ∧
    (vdb = none →
      (chat req (some auth) embedQuery score vdb).relevantChunks = [] ∧
      (chat req (some auth) embedQuery score vdb).enhancedDev
        = some req.developer_message) ∧
    (∀ db q, vdb = some db → embedQuery = Except.ok q →
      0 < db.vectors.length →
      (chat req (some auth) embedQuery score vdb).relevantChunks
        = (db.search q 3 score).map Prod.fst) := by
  have h1 : (chat req (some auth) embedQuery score vdb).enhancedDev
      = some (enhanceDeveloperMessage req.developer_message
          (chat req (some auth) embedQuery score vdb).relevantChunks) := by
    simp [chat, hauth]
  refine ⟨?_, ?_, ?_, ?_⟩
  · intro hempty
    rw [h1, hempty]
    rfl
  · intro hne
    rw [h1]
    unfold enhanceDeveloperMessage
    rw [if_neg (by simpa using hne)]
  · intro hnone
    subst hnone
    refine ⟨by simp [chat, hauth, chatRetrieval], ?_⟩
    simp [chat, hauth, chatRetrieval, enhanceDeveloperMessage]
  · intro db q hdb hq hlen
    subst hdb
    subst hq
    simp [chat, hauth, chatRetrieval, hlen]

/-- C8 witness: a concrete chat turn with no index ever built and a concrete
chat turn whose retrieval returns a chunk. -/
theorem c8_developer_message_augmentation_witness :
    pyStartsWith "Bearer sk-test" "Bearer " = true ∧
    (chat { developer_message := "dev", user_message := "hi",
            model := "gpt-4.1-mini" }
      (some "Bearer sk-test") (Except.ok [1]) (fun _ _ => 0) none).relevantChunks
      = [] ∧
    (chat { developer_message := "dev", user_message := "hi",
            model := "gpt-4.1-mini" }
      (some "Bearer sk-test") (Except.ok [1]) (fun _ _ => 0) none).enhancedDev
      = some "dev" := by
  have h := c8_developer_message_augmentation
    { developer_message := "dev", user_message := "hi", model := "gpt-4.1-mini" }
    "Bearer sk-test" (Except.ok [1]) (fun _ _ => 0) none (by decide)
  exact ⟨by decide, (h.2.2.1 rfl).1, (h.2.2.1 rfl).2⟩

/-- C9: `GET /api/health` takes no credential argument at all, returns the
global `vector_db` unchanged (it reads the variable directly and never calls
`get_vector_db`, so it never creates an index), and reports `0` when no index
has been built yet and the current entry count otherwise. -/
theorem c9_health_reports_count_without_mutation
    (vdb : Option VectorDatabase) :
    (health_check vdb).newDb = vdb ∧
    (health_check vdb).status = "ok" ∧
    (health_check vdb).indexed_documents
      = (vdb.map fun db => db.vectors.length).getD 0 := by
  cases vdb <;> simp [health_check]

/-- C10: on both endpoints the credential forwarded to the provider is
`authorization.replace("Bearer ", "")` — Python `replace` removes every
occurrence of the substring, not just the leading prefix — and for the valid
header `"Bearer abcBearer def"` (token `"abcBearer def"`) the forwarded
credential `"abcdef"` differs from the token the caller supplied. -/
theorem c10_forwarded_credential_strips_every_bearer_occurrence :
    (∀ (req : ChatRequest) (auth : String)
        (embedQuery : Except String EmbeddingVector)
        (score : EmbeddingVector → EmbeddingVector → Rat)
        (vdb : Option VectorDatabase),
        pyStartsWith auth "Bearer " = true →
        (chat req (some auth) embedQuery score vdb).apiKey
          = some (pyReplace auth "Bearer " "")) ∧
    (∀ (auth : String) (filename : Option String)
        (extract : Except String (List String))
        (embed : Chunk → Except String EmbeddingVector)
        (vdb : Option VectorDatabase),
        pyStartsWith auth "Bearer " = true →
        (upload_pdf (some auth) filename extract embed vdb).apiKey
          = some (pyReplace auth "Bearer " "")) ∧
    pyStartsWith "Bearer abcBearer def" "Bearer " = true ∧
    "Bearer abcBearer def" = "Bearer " ++ "abcBearer def" ∧
    pyReplace "Bearer abcBearer def" "Bearer " "" = "abcdef" ∧
    pyReplace "Bearer abcBearer def" "Bearer " "" ≠ "abcBearer def" := by
  refine ⟨?_, ?_, by decide, by decide, by decide, by decide⟩
  · intro req auth embedQuery score vdb hauth
    simp [chat, hauth]
  · intro auth filename extract embed vdb hauth
    by_cases hf : filenameOk filename = true
    · cases extract with
      | error e => simp [upload_pdf, hauth, hf]
      | ok documents =>
        cases he : embedChunks embed (splitTexts documents) with
        | error e => simp [upload_pdf, hauth, hf, he]
        | ok entries => simp [upload_pdf, hauth, hf, he]
    · simp [upload_pdf, hauth, hf]

/-- C10 witness: the forwarded credential on both endpoints for the header
`"Bearer abcBearer def"`. -/
theorem c10_forwarded_credential_strips_every_bearer_occurrence_witness :
    (chat { developer_message := "dev", user_message := "hi",
            model := "gpt-4.1-mini" }
      (some "Bearer abcBearer def") (Except.ok [1]) (fun _ _ => 0) none).apiKey
      = some (pyReplace "Bearer abcBearer def" "Bearer " "") ∧
    (upload_pdf (some "Bearer abcBearer def") (some "doc.pdf")
        (Except.ok ["text"]) (fun _ => Except.ok [1]) none).apiKey
      = some (pyReplace "Bearer abcBearer def" "Bearer " "") :=
  ⟨(c10_forwarded_credential_strips_every_bearer_occurrence).1
      { developer_message := "dev", user_message := "hi", model := "gpt-4.1-mini" }
      "Bearer abcBearer def" (Except.ok [1]) (fun _ _ => 0) none (by decide),
   (c10_forwarded_credential_strips_every_bearer_occurrence).2.1
      "Bearer abcBearer def" (some "doc.pdf") (Except.ok ["text"])
      (fun _ => Except.ok [1]) none (by decide)⟩
